import Mathlib

/- Shallow embedding of the mongo-mcp-server query pipeline:
   option sanitization (MongoQueryTool._validate_options), cursor
   construction and materialization, result rendering, and the MCP
   handlers (call_tool, read_resource, get_content). -/

namespace MongoMcp

/-- JSON-like values as they occur in MongoDB documents, filters and
option bags.  A datetime carries its isoformat string; an ObjectId
carries its canonical hex string (the value Python's str() returns). -/
inductive Value where
  | null
  | bool (b : Bool)
  | int (n : Int)
  | str (s : String)
  | dateTime (iso : String)
  | objectId (hex : String)
  | arr (xs : List Value)
  | obj (fields : List (String × Value))
deriving Repr

mutual
/-- Boolean equality on values, mirroring Python == on these shapes. -/
def Value.beq : Value → Value → Bool
  | .null, .null => true
  | .bool a, .bool b => a == b
  | .int a, .int b => a == b
  | .str a, .str b => a == b
  | .dateTime a, .dateTime b => a == b
  | .objectId a, .objectId b => a == b
  | .arr xs, .arr ys => Value.beqList xs ys
  | .obj fs, .obj gs => Value.beqFields fs gs
  | _, _ => false

def Value.beqList : List Value → List Value → Bool
  | [], [] => true
  | x :: xs, y :: ys => Value.beq x y && Value.beqList xs ys
  | _, _ => false

def Value.beqFields : List (String × Value) → List (String × Value) → Bool
  | [], [] => true
  | (k, v) :: fs, (l, w) :: gs => k == l && Value.beq v w && Value.beqFields fs gs
  | _, _ => false
end

instance : BEq Value := ⟨Value.beq⟩

/-- Python truthiness of a value (bool(value)). -/
def truthy : Value → Bool
  | .null => false
  | .bool b => b
  | .int n => n != 0
  | .str s => s != ""
  | .dateTime _ => true
  | .objectId _ => true
  | .arr xs => !xs.isEmpty
  | .obj fs => !fs.isEmpty

/-- isinstance(value, int) view: Python bools are ints. -/
def Value.asPyInt : Value → Option Int
  | .int n => some n
  | .bool b => some (if b then 1 else 0)
  | _ => none

/-- Python str() on the value forms that occur as a document _id. -/
def pyStr : Value → String
  | .str s => s
  | .int n => toString n
  | .bool b => if b then "True" else "False"
  | .null => "None"
  | .objectId hex => hex
  | .dateTime iso => iso
  | .arr _ => "<list>"
  | .obj _ => "<dict>"

/-- A Python dict of string keys, in insertion order. -/
abbrev Dict := List (String × Value)

/-- dict lookup (d.get(k) / d[k]). -/
def dictGet (d : Dict) (k : String) : Option Value :=
  match d with
  | [] => none
  | (k₁, v) :: rest => if k₁ = k then some v else dictGet rest k

/-- dict assignment d[k] = v: replace in place, else append. -/
def dictUpsert (d : Dict) (k : String) (v : Value) : Dict :=
  match d with
  | [] => [(k, v)]
  | (k₁, v₁) :: rest =>
    if k₁ = k then (k, v) :: rest else (k₁, v₁) :: dictUpsert rest k v

/-- the keys of a dict in order. -/
def dictKeys (d : Dict) : List String := d.map Prod.fst

/-- d.get(k) when the looked-up value is truthy, none otherwise;
models the guards of the form `if options.get(k):`. -/
def getTruthy (d : Dict) (k : String) : Option Value :=
  match dictGet d k with
  | some v => if truthy v then some v else none
  | none => none

/-- Two spaces of indentation per level, as json.dumps(indent=2) emits. -/
def indentStr (lvl : Nat) : String := String.mk (List.replicate (2 * lvl) ' ')

/-- JSON escaping of one character (ensure_ascii escapes beyond these are
not modelled; no document in this development needs them). -/
def jsonEscapeChar (c : Char) : String :=
  if c = '"' then "\\\""
  else if c = '\\' then "\\\\"
  else if c = '\n' then "\\n"
  else if c = '\t' then "\\t"
  else if c = '\r' then "\\r"
  else String.singleton c

/-- A JSON string literal for s. -/
def jsonQuote (s : String) : String :=
  "\"" ++ String.join (s.toList.map jsonEscapeChar) ++ "\""

/-- The error message json.dumps raises on a datetime when no custom
encoder is installed. -/
def datetimeDumpErr : String := "Object of type datetime is not JSON serializable"

/-- The error message json.dumps raises on an ObjectId (MongoJSONEncoder
only handles datetime, so this raises with or without the encoder). -/
def objectIdDumpErr : String := "Object of type ObjectId is not JSON serializable"

mutual
/-- json.dumps(v, indent=2) at nesting level lvl.  When enc is true the
call passes cls=MongoJSONEncoder (server.py), whose default() turns a
datetime into obj.isoformat(); when enc is false (query_tool.py,
collection_resource.py) a datetime is not serializable and dumping
fails with a TypeError. -/
def jsonDumps (enc : Bool) (lvl : Nat) : Value → Except String String
  | .null => .ok "null"
  | .bool b => .ok (if b then "true" else "false")
  | .int n => .ok (toString n)
  | .str s => .ok (jsonQuote s)
  | .dateTime iso => if enc then .ok (jsonQuote iso) else .error datetimeDumpErr
  | .objectId _ => .error objectIdDumpErr
  | .arr xs =>
    match jsonDumpsList enc (lvl + 1) xs with
    | .error e => .error e
    | .ok [] => .ok "[]"
    | .ok parts =>
      .ok ("[\n" ++ String.intercalate ",\n" (parts.map (fun p => indentStr (lvl + 1) ++ p))
        ++ "\n" ++ indentStr lvl ++ "]")
  | .obj fs =>
    match jsonDumpsFields enc (lvl + 1) fs with
    | .error e => .error e
    | .ok [] => .ok "\x7b\x7d"
    | .ok parts =>
      .ok ("\x7b\n" ++ String.intercalate ",\n" (parts.map (fun p => indentStr (lvl + 1) ++ p))
        ++ "\n" ++ indentStr lvl ++ "\x7d")

/-- Renders the elements of a JSON array, stopping at the first failure. -/
def jsonDumpsList (enc : Bool) (lvl : Nat) : List Value → Except String (List String)
  | [] => .ok []
  | v :: rest =>
    match jsonDumps enc lvl v with
    | .error e => .error e
    | .ok s =>
      match jsonDumpsList enc lvl rest with
      | .error e => .error e
      | .ok r => .ok (s :: r)

/-- Renders the key/value entries of a JSON object, stopping at the
first failure. -/
def jsonDumpsFields (enc : Bool) (lvl : Nat) : List (String × Value) → Except String (List String)
  | [] => .ok []
  | (k, v) :: rest =>
    match jsonDumps enc lvl v with
    | .error e => .error e
    | .ok s =>
      match jsonDumpsFields enc lvl rest with
      | .error e => .error e
      | .ok r => .ok ((jsonQuote k ++ ": " ++ s) :: r)
end

/-- MongoDB equality-filter semantics on top-level fields: a document
matches when every field named in the filter is present with an equal
value.  The empty filter matches every document.  (Filters are opaque
pass-through in this service; this is the backing-store collaborator
semantics for the plain filters exercised here.) -/
def filterMatches (query : Dict) (doc : Dict) : Bool :=
  query.all (fun kv =>
    match dictGet doc kv.1 with
    | some v => Value.beq v kv.2
    | none => false)

/-- collection.count_documents(query). -/
def count_documents (coll : List Dict) (query : Dict) : Nat :=
  (coll.filter (filterMatches query)).length

/-- A rank over value shapes approximating the BSON type order, used
only to compare values of different shapes under sort. -/
def typeRank : Value → Nat
  | .null => 0
  | .int _ => 1
  | .str _ => 2
  | .obj _ => 3
  | .arr _ => 4
  | .objectId _ => 5
  | .bool _ => 6
  | .dateTime _ => 7

/-- Comparison of two field values under a Mongo sort. -/
def valueCmp (a b : Value) : Ordering :=
  match a, b with
  | .int x, .int y => compare x y
  | .str x, .str y => compare x y
  | .bool x, .bool y => compare (cond x 1 0) (cond y 1 (0 : Nat))
  | .dateTime x, .dateTime y => compare x y
  | .objectId x, .objectId y => compare x y
  | _, _ => compare (typeRank a) (typeRank b)

/-- Lexicographic document comparison along a sort specification
(field, direction) list; a missing field compares as null, a negative
direction reverses the field's order. -/
def docCompare (spec : List (String × Value)) (d₁ d₂ : Dict) : Ordering :=
  match spec with
  | [] => .eq
  | (k, dir) :: rest =>
    let o := valueCmp ((dictGet d₁ k).getD .null) ((dictGet d₂ k).getD .null)
    let o := if (Value.asPyInt dir).getD 1 < 0 then o.swap else o
    match o with
    | .eq => docCompare rest d₁ d₂
    | other => other

/-- Stable insertion of a document into an already sorted run. -/
def insertSorted (spec : List (String × Value)) (d : Dict) : List Dict → List Dict
  | [] => [d]
  | e :: rest =>
    if docCompare spec d e = .gt then e :: insertSorted spec d rest
    else d :: e :: rest

/-- Stable sort of the documents along the sort specification. -/
def sortDocs (spec : List (String × Value)) : List Dict → List Dict
  | [] => []
  | d :: rest => insertSorted spec d (sortDocs spec rest)

/-- Mongo projection semantics: inclusion mode when any non-_id entry is
truthy (include the listed fields, and _id unless excluded), otherwise
exclusion mode (drop the listed truthy-spec fields). -/
def applyProjection (p : Dict) (doc : Dict) : Dict :=
  let inclusionMode := p.any (fun kv => kv.1 ≠ "_id" && truthy kv.2)
  if inclusionMode then
    doc.filter (fun kv =>
      if kv.1 = "_id" then
        match dictGet p "_id" with
        | some v => truthy v
        | none => true
      else
        match dictGet p kv.1 with
        | some v => truthy v
        | none => false)
  else
    doc.filter (fun kv =>
      match dictGet p kv.1 with
      | some v => !truthy v
      | none => true)

/-- Which cursor-building stage a chained cursor method call applies;
the trace of these records the order the code applies options in. -/
inductive StageTag where
  | projection
  | sort
  | skip
  | limit
deriving Repr, DecidableEq

/-- A pymongo cursor: the filter it was created over, the option each
chained method has set, and the trace of method calls in code order.
Materialization depends only on the option fields (the store evaluates
filter, sort, skip, limit, projection canonically whatever the chaining
order), while the trace records the order the code chained them in. -/
structure Cursor where
  filter : Dict
  projectionOpt : Option Dict := none
  sortOpt : Option (List (String × Value)) := none
  skipOpt : Option Int := none
  limitOpt : Option Int := none
  applied : List StageTag := []

/-- collection.find(query). -/
def Cursor.find (query : Dict) : Cursor := { filter := query }

/-- cursor.projection(p) (projection as assumed by the source). -/
def Cursor.withProjection (c : Cursor) (p : Dict) : Cursor :=
  { c with projectionOpt := some p, applied := c.applied ++ [StageTag.projection] }

/-- cursor.sort(spec). -/
def Cursor.withSort (c : Cursor) (spec : List (String × Value)) : Cursor :=
  { c with sortOpt := some spec, applied := c.applied ++ [StageTag.sort] }

/-- cursor.skip(n). -/
def Cursor.withSkip (c : Cursor) (n : Int) : Cursor :=
  { c with skipOpt := some n, applied := c.applied ++ [StageTag.skip] }

/-- cursor.limit(n). -/
def Cursor.withLimit (c : Cursor) (n : Int) : Cursor :=
  { c with limitOpt := some n, applied := c.applied ++ [StageTag.limit] }

/-- list(cursor): the store evaluates filter, then sort, then skip, then
limit (limit 0 meaning no limit, a negative limit acting as its absolute
value), then projection. -/
def Cursor.materialize (c : Cursor) (coll : List Dict) : List Dict :=
  let m := coll.filter (filterMatches c.filter)
  let m := match c.sortOpt with
           | some spec => sortDocs spec m
           | none => m
  let m := match c.skipOpt with
           | some n => m.drop n.toNat
           | none => m
  let m := match c.limitOpt with
           | some n => if n = 0 then m else m.take n.natAbs
           | none => m
  match c.projectionOpt with
  | some p => m.map (applyProjection p)
  | none => m

/-- MongoQueryTool.ALLOWED_OPTIONS (server.py uses the same set inline
in call_tool). -/
def ALLOWED_OPTIONS : List String := ["projection", "sort", "limit", "skip"]

/-- The per-key transformation _validate_options applies to a
whitelisted entry: a limit that is not an int or exceeds 100 becomes
100, a skip that is not an int or is negative becomes 0, anything else
passes through unchanged. -/
def validateEntry (k : String) (v : Value) : Value :=
  if k = "limit" then
    match v.asPyInt with
    | none => .int 100
    | some n => if n > 100 then .int 100 else v
  else if k = "skip" then
    match v.asPyInt with
    | none => .int 0
    | some n => if n < 0 then .int 0 else v
  else v

/-- The loop body of MongoQueryTool._validate_options: keep a
whitelisted key with its transformed value (validated[key] = ...),
drop any other key. -/
def validateStep (validated : Dict) (kv : String × Value) : Dict :=
  if kv.1 ∈ ALLOWED_OPTIONS then dictUpsert validated kv.1 (validateEntry kv.1 kv.2)
  else validated

/-- MongoQueryTool._validate_options: fold the loop body over the raw
options starting from an empty dict. -/
def validate_options (options : Dict) : Dict :=
  options.foldl validateStep []

/-- options.items() on a value that must be a dict; anything else
raises an AttributeError in Python (list(value.items())). -/
def Value.dictItems : Value → Except String Dict
  | .obj fs => .ok fs
  | _ => .error "AttributeError: value has no attribute items"

/-- cursor.projection(p) requires a mapping; anything else is rejected
by the driver with a TypeError. -/
def Value.asMapping : Value → Except String Dict
  | .obj fs => .ok fs
  | _ => .error "TypeError: projection must be a mapping"

/-- `if options.get('projection'): cursor = cursor.projection(...)`. -/
def stepProjection (opts : Dict) (c : Cursor) : Except String Cursor :=
  match getTruthy opts "projection" with
  | some p =>
    match p.asMapping with
    | .ok pd => .ok (c.withProjection pd)
    | .error e => .error e
  | none => .ok c

/-- `if options.get('sort'): cursor = cursor.sort(list(options['sort'].items()))`. -/
def stepSort (opts : Dict) (c : Cursor) : Except String Cursor :=
  match getTruthy opts "sort" with
  | some s =>
    match s.dictItems with
    | .ok spec => .ok (c.withSort spec)
    | .error e => .error e
  | none => .ok c

/-- `if options.get('skip'): cursor = cursor.skip(options['skip'])`;
the driver rejects a non-int skip with a TypeError. -/
def stepSkip (opts : Dict) (c : Cursor) : Except String Cursor :=
  match getTruthy opts "skip" with
  | some v =>
    match v.asPyInt with
    | some n => .ok (c.withSkip n)
    | none => .error "TypeError: skip must be an integer"
  | none => .ok c

/-- `if options.get('limit'): cursor = cursor.limit(options['limit'])`;
the driver rejects a non-int limit with a TypeError. -/
def stepLimit (opts : Dict) (c : Cursor) : Except String Cursor :=
  match getTruthy opts "limit" with
  | some v =>
    match v.asPyInt with
    | some n => .ok (c.withLimit n)
    | none => .error "TypeError: limit must be an integer"
  | none => .ok c

/-- The cursor MongoQueryTool.execute builds (lines 108-118): find,
then the option guards in code order projection, sort, skip, limit. -/
def buildCursorQueryTool (opts : Dict) (query : Dict) : Except String Cursor :=
  match stepProjection opts (Cursor.find query) with
  | .error e => .error e
  | .ok c =>
    match stepSort opts c with
    | .error e => .error e
    | .ok c =>
      match stepSkip opts c with
      | .error e => .error e
      | .ok c => stepLimit opts c

/-- The cursor MongoMCPServer.call_tool builds (lines 191-197): find,
then the option guards in code order limit, sort, projection — no skip
guard exists on this path. -/
def buildCursorCallTool (opts : Dict) (query : Dict) : Except String Cursor :=
  match stepLimit opts (Cursor.find query) with
  | .error e => .error e
  | .ok c =>
    match stepSort opts c with
    | .error e => .error e
    | .ok c => stepProjection opts c

/-- The arguments of a tool call: params.get("query", {}) and
params.get("options", {}). -/
structure Params where
  queryArg : Option Dict := none
  optionsArg : Option Dict := none

/-- `if '_id' in doc: doc['_id'] = str(doc['_id'])`. -/
def stringifyId (doc : Dict) : Dict :=
  match dictGet doc "_id" with
  | some v => dictUpsert doc "_id" (.str (pyStr v))
  | none => doc

/-- The formatting loops: json.dumps each document (after _id
stringification) in result order, raising at the first failure.  enc
selects whether cls=MongoJSONEncoder was passed. -/
def formatDocs (enc : Bool) : List Dict → Except String (List String)
  | [] => .ok []
  | d :: rest =>
    match jsonDumps enc 0 (.obj (stringifyId d)) with
    | .error e => .error e
    | .ok s =>
      match formatDocs enc rest with
      | .error e => .error e
      | .ok r => .ok (s :: r)

/-- The summary MongoQueryTool.execute prefixes a non-empty page with. -/
def queryToolSummary (totalCount : Nat) (shown : Nat) : String :=
  "Found " ++ toString totalCount ++ " total matching documents.\nShowing "
    ++ toString shown ++ " document(s):\n"

/-- The body of MongoQueryTool.execute inside its try block; an
`.error` is what the except clause catches. -/
def MongoQueryTool.executeE (coll : List Dict) (params : Params) : Except String (List String) :=
  let query := params.queryArg.getD []
  let options := validate_options (params.optionsArg.getD [])
  let totalCount := count_documents coll query
  match buildCursorQueryTool options query with
  | .error e => .error e
  | .ok c =>
    let results := c.materialize coll
    if results.isEmpty then .ok ["No matching documents found."]
    else
      match formatDocs false results with
      | .error e => .error e
      | .ok formatted =>
        .ok [queryToolSummary totalCount results.length ++ String.intercalate "\n" formatted]

/-- MongoQueryTool.execute: the try body with the except clause turning
any exception into an error text. -/
def MongoQueryTool.execute (collectionName : String) (coll : List Dict) (params : Params) :
    List String :=
  match MongoQueryTool.executeE coll params with
  | .ok r => r
  | .error e => ["Error executing query on " ++ collectionName ++ ": " ++ e]

/-- The documents MongoQueryTool.execute materializes (the `results`
variable at line 121), before any rendering. -/
def MongoQueryTool.runQuery (coll : List Dict) (query rawOptions : Dict) :
    Except String (List Dict) :=
  match buildCursorQueryTool (validate_options rawOptions) query with
  | .error e => .error e
  | .ok c => .ok (c.materialize coll)

/-- str.startswith(pre), spelt out over the character lists so that it
evaluates by reduction. -/
def pyStartsWith (s pre : String) : Bool := pre.data.isPrefixOf s.data

/-- The state MongoMCPServer holds: the configured collection's
documents and the connection flag. -/
structure ServerState where
  docs : List Dict
  is_connected : Bool

/-- `{k: v for k, v in options.items() if k in allowed_options}` in
call_tool: key filtering only, no clamping. -/
def filterAllowed (options : Dict) : Dict :=
  options.filter (fun kv => kv.1 ∈ ALLOWED_OPTIONS)

/-- The summary MongoMCPServer.call_tool prefixes a non-empty page
with: only the returned count. -/
def callToolSummary (shown : Nat) : String :=
  "Found " ++ toString shown ++ " matching documents:\n"

/-- The query part of MongoMCPServer.call_tool inside its try block
(lines 183-215): key-filter the options, build the cursor in call_tool
order, materialize and render with MongoJSONEncoder. -/
def MongoMCPServer.callToolE (s : ServerState) (arguments : Params) :
    Except String (List String) :=
  let query := arguments.queryArg.getD []
  let options := arguments.optionsArg.getD []
  let filtered := filterAllowed options
  match buildCursorCallTool filtered query with
  | .error e => .error e
  | .ok c =>
    let results := c.materialize s.docs
    if results.isEmpty then .ok ["No matching documents found."]
    else
      match formatDocs true results with
      | .error e => .error e
      | .ok formatted =>
        .ok [callToolSummary results.length ++ String.intercalate "\n" formatted]

/-- MongoMCPServer.call_tool: connection check, then the tool-name
check `if not name.startswith("query_")`, then the query body, with the
except clause rendering any exception as an error text. -/
def MongoMCPServer.call_tool (s : ServerState) (name : String) (arguments : Params) :
    List String :=
  if !s.is_connected then ["MongoDB connection not initialized"]
  else if !(pyStartsWith name "query_") then ["Unknown tool: " ++ name]
  else
    match MongoMCPServer.callToolE s arguments with
    | .ok r => r
    | .error e => ["Error executing query: " ++ e]

/-- MongoMCPServer.read_resource: connection check, parse a collection
name out of the uri (computed but never used), then
collection.find().limit(10) on the configured collection, rendered with
MongoJSONEncoder. -/
def MongoMCPServer.read_resource (s : ServerState) (uri : String) : String :=
  if !s.is_connected then "MongoDB connection not initialized"
  else
    let _collection_name := (uri.splitOn "://").getLastD ""
    let documents := ((Cursor.find []).withLimit 10).materialize s.docs
    if documents.isEmpty then "No documents found in the collection."
    else
      match formatDocs true documents with
      | .ok fd => String.intercalate "\n" fd
      | .error e => "Error reading resource: " ++ e

/-- The summary MongoCollectionResource.get_content prefixes a
non-empty page with: the total count and the inclusive 1-based index
range skip+1 .. min(skip+shown, total). -/
def resourceSummary (totalCount : Nat) (skipN : Int) (shown : Nat) : String :=
  "Found " ++ toString totalCount ++ " total documents matching query.\nShowing documents "
    ++ toString (skipN + 1) ++ "-" ++ toString (min (skipN + (shown : Int)) (totalCount : Int))
    ++ ":\n"

/-- MongoCollectionResource.get_content: count, then
find(query).skip(skip).limit(limit), render without the custom encoder,
prefix with the pagination summary; exceptions become an error text. -/
def MongoCollectionResource.get_content (collectionName : String) (coll : List Dict)
    (query : Dict) (skipN : Int) (limitN : Int) : List String :=
  let totalCount := count_documents coll query
  let documents := (((Cursor.find query).withSkip skipN).withLimit limitN).materialize coll
  if documents.isEmpty then ["No documents found matching the query."]
  else
    match formatDocs false documents with
    | .ok fd =>
      [resourceSummary totalCount skipN documents.length ++ String.intercalate "\n" fd]
    | .error e => ["Error retrieving documents from " ++ collectionName ++ ": " ++ e]

/-! Lemmas about the option sanitizer. -/

/-- An entry the sanitizer can emit: whitelisted key, value fixed under
the per-key transformation. -/
def validatedEntry (kv : String × Value) : Prop :=
  kv.1 ∈ ALLOWED_OPTIONS ∧ validateEntry kv.1 kv.2 = kv.2

theorem validateEntry_idem (k : String) (v : Value) :
    validateEntry k (validateEntry k v) = validateEntry k v := by
  unfold validateEntry
  by_cases hl : k = "limit"
  · simp only [hl, if_pos rfl]
    cases hv : v.asPyInt with
    | none => simp [Value.asPyInt]
    | some n =>
      by_cases hn : n > 100
      · simp [hn, Value.asPyInt]
      · simp [hn, hv]
  · by_cases hs : k = "skip"
    · simp only [hl, hs, if_neg, if_pos rfl, reduceIte]
      cases hv : v.asPyInt with
      | none => simp [Value.asPyInt]
      | some n =>
        by_cases hn : n < 0
        · simp [hn, Value.asPyInt]
        · simp [hn, hv]
    · simp [hl, hs]

theorem mem_dictUpsert {d : Dict} {k : String} {v : Value} {kv : String × Value}
    (h : kv ∈ dictUpsert d k v) : kv = (k, v) ∨ kv ∈ d := by
  induction d with
  | nil =>
    simp [dictUpsert] at h
    exact Or.inl h
  | cons hd tl ih =>
    obtain ⟨k₁, v₁⟩ := hd
    unfold dictUpsert at h
    by_cases he : k₁ = k
    · simp only [he, if_pos rfl] at h
      rcases List.mem_cons.mp h with h | h
      · exact Or.inl h
      · exact Or.inr (List.mem_cons_of_mem _ h)
    · simp only [if_neg he] at h
      rcases List.mem_cons.mp h with h | h
      · exact Or.inr (List.mem_cons.mpr (Or.inl h))
      · rcases ih h with h | h
        · exact Or.inl h
        · exact Or.inr (List.mem_cons_of_mem _ h)

theorem validate_fold_good (O : Dict) :
    ∀ acc : Dict, (∀ kv ∈ acc, validatedEntry kv) →
      ∀ kv ∈ List.foldl validateStep acc O, validatedEntry kv := by
  induction O with
  | nil => intro acc hacc kv hkv; exact hacc kv hkv
  | cons hd tl ih =>
    intro acc hacc kv hkv
    rw [List.foldl_cons] at hkv
    refine ih _ ?_ kv hkv
    intro kv₁ hkv₁
    unfold validateStep at hkv₁
    by_cases hmem : hd.1 ∈ ALLOWED_OPTIONS
    · rw [if_pos hmem] at hkv₁
      rcases mem_dictUpsert hkv₁ with h | h
      · subst h
        exact ⟨hmem, validateEntry_idem _ _⟩
      · exact hacc _ h
    · rw [if_neg hmem] at hkv₁
      exact hacc _ hkv₁

theorem dictKeys_upsert (d : Dict) (k : String) (v : Value) :
    dictKeys (dictUpsert d k v) =
      if k ∈ dictKeys d then dictKeys d else dictKeys d ++ [k] := by
  induction d with
  | nil => simp [dictUpsert, dictKeys]
  | cons hd tl ih =>
    obtain ⟨k₁, v₁⟩ := hd
    unfold dictUpsert
    by_cases he : k₁ = k
    · subst he
      simp [dictKeys]
    · rw [if_neg he]
      simp only [dictKeys, List.map_cons] at ih ⊢
      rw [ih]
      have hne : ¬ k = k₁ := fun h => he h.symm
      by_cases hm : k ∈ List.map Prod.fst tl
      · simp [hm, hne]
      · simp [hm, hne]

theorem dictKeys_upsert_nodup {d : Dict} (k : String) (v : Value)
    (h : (dictKeys d).Nodup) : (dictKeys (dictUpsert d k v)).Nodup := by
  rw [dictKeys_upsert]
  by_cases hm : k ∈ dictKeys d
  · rwa [if_pos hm]
  · rw [if_neg hm]
    simp [List.nodup_append, h, hm]

theorem validate_fold_nodup (O : Dict) :
    ∀ acc : Dict, (dictKeys acc).Nodup →
      (dictKeys (List.foldl validateStep acc O)).Nodup := by
  induction O with
  | nil => intro acc hacc; exact hacc
  | cons hd tl ih =>
    intro acc hacc
    rw [List.foldl_cons]
    refine ih _ ?_
    unfold validateStep
    by_cases hmem : hd.1 ∈ ALLOWED_OPTIONS
    · rw [if_pos hmem]
      exact dictKeys_upsert_nodup _ _ hacc
    · rwa [if_neg hmem]

theorem validate_fold_frozen (O : Dict) :
    ∀ (acc : Dict) (k : String) (v : Value), (∀ kv ∈ O, kv.1 ≠ k) →
      List.foldl validateStep ((k, v) :: acc) O =
        (k, v) :: List.foldl validateStep acc O := by
  induction O with
  | nil => intro acc k v _; rfl
  | cons hd tl ih =>
    intro acc k v hne
    obtain ⟨k₁, v₁⟩ := hd
    have hk₁ : k₁ ≠ k := hne (k₁, v₁) (List.mem_cons_self _ _)
    rw [List.foldl_cons, List.foldl_cons]
    have hstep : validateStep ((k, v) :: acc) (k₁, v₁) =
        (k, v) :: validateStep acc (k₁, v₁) := by
      unfold validateStep
      by_cases hmem : (k₁, v₁).1 ∈ ALLOWED_OPTIONS
      · rw [if_pos hmem, if_pos hmem]
        show dictUpsert ((k, v) :: acc) k₁ _ = _
        simp only [dictUpsert]
        rw [if_neg (fun h => hk₁ h.symm)]
      · rw [if_neg hmem, if_neg hmem]
    rw [hstep]
    exact ih _ k v (fun kv hkv => hne kv (List.mem_cons_of_mem _ hkv))

theorem validate_fixpoint : ∀ d : Dict, (∀ kv ∈ d, validatedEntry kv) →
    (dictKeys d).Nodup → validate_options d = d := by
  intro d
  induction d with
  | nil => intro _ _; rfl
  | cons hd tl ih =>
    intro hgood hnd
    obtain ⟨k, v⟩ := hd
    obtain ⟨hk, hv⟩ := hgood (k, v) (List.mem_cons_self _ _)
    have hstep : validateStep [] (k, v) = [(k, v)] := by
      unfold validateStep
      rw [if_pos hk]
      show dictUpsert [] k (validateEntry k v) = [(k, v)]
      unfold dictUpsert
      rw [hv]
    have hnotin : ∀ kv ∈ tl, kv.1 ≠ k := by
      intro kv hkv heq
      have : k ∈ dictKeys tl := heq ▸ List.mem_map_of_mem Prod.fst hkv
      simp only [dictKeys, List.map_cons, List.nodup_cons] at hnd
      exact hnd.1 this
    have hnd' : (dictKeys tl).Nodup := by
      simp only [dictKeys, List.map_cons, List.nodup_cons] at hnd
      exact hnd.2
    calc validate_options ((k, v) :: tl)
        = List.foldl validateStep [(k, v)] tl := by
          unfold validate_options; rw [List.foldl_cons, hstep]
      _ = (k, v) :: List.foldl validateStep [] tl :=
          validate_fold_frozen tl [] k v hnotin
      _ = (k, v) :: tl := by
          rw [show List.foldl validateStep [] tl = validate_options tl from rfl,
            ih (fun kv hkv => hgood kv (List.mem_cons_of_mem _ hkv)) hnd']

/-- C8: The option sanitizer is idempotent: for every options mapping O,
sanitize(sanitize(O)) equals sanitize(O) — once clamped and filtered, a
second sanitization changes nothing. -/
theorem validate_options_idempotent (O : Dict) :
    validate_options (validate_options O) = validate_options O :=
  validate_fixpoint _
    (validate_fold_good O [] (by intro kv hkv; cases hkv))
    (validate_fold_nodup O [] List.nodup_nil)

/-- C3: The sanitized mapping has keys within the whitelist projection,
sort, limit, skip; a sanitized integer limit is at most 100 and a
sanitized integer skip is at least 0; a non-integer limit becomes 100,
and a non-integer or negative skip becomes 0. -/
theorem validate_options_invariants :
    (∀ (O : Dict) (k : String), k ∈ dictKeys (validate_options O) → k ∈ ALLOWED_OPTIONS)
    ∧ (∀ L : Int, ∃ n : Int,
        dictGet (validate_options [("limit", Value.int L)]) "limit" = some (Value.int n)
        ∧ n ≤ 100)
    ∧ (∀ S : Int, ∃ n : Int,
        dictGet (validate_options [("skip", Value.int S)]) "skip" = some (Value.int n)
        ∧ 0 ≤ n)
    ∧ (∀ v : Value, v.asPyInt = none →
        validate_options [("limit", v)] = [("limit", Value.int 100)])
    ∧ (∀ v : Value, v.asPyInt = none →
        validate_options [("skip", v)] = [("skip", Value.int 0)])
    ∧ (∀ S : Int, S < 0 →
        validate_options [("skip", Value.int S)] = [("skip", Value.int 0)]) := by
  refine ⟨?_, ?_, ?_, ?_, ?_, ?_⟩
  · intro O k hk
    simp only [dictKeys, List.mem_map] at hk
    obtain ⟨kv, hkv, hfst⟩ := hk
    exact hfst ▸ (validate_fold_good O [] (by intro kv hkv; cases hkv) kv hkv).1
  · intro L
    have hred : validate_options [("limit", Value.int L)] =
        [("limit", if L > 100 then Value.int 100 else Value.int L)] := rfl
    by_cases hL : L > 100
    · exact ⟨100, by rw [hred, if_pos hL]; rfl, by norm_num⟩
    · exact ⟨L, by rw [hred, if_neg hL]; rfl, by omega⟩
  · intro S
    have hred : validate_options [("skip", Value.int S)] =
        [("skip", if S < 0 then Value.int 0 else Value.int S)] := rfl
    by_cases hS : S < 0
    · exact ⟨0, by rw [hred, if_pos hS]; rfl, by norm_num⟩
    · exact ⟨S, by rw [hred, if_neg hS]; rfl, by omega⟩
  · intro v hv
    have hred : validate_options [("limit", v)] =
        [("limit", validateEntry "limit" v)] := rfl
    rw [hred]
    unfold validateEntry
    rw [if_pos rfl, hv]
  · intro v hv
    have hred : validate_options [("skip", v)] =
        [("skip", validateEntry "skip" v)] := rfl
    rw [hred]
    unfold validateEntry
    rw [if_neg (by decide), if_pos rfl, hv]
  · intro S hS
    have hred : validate_options [("skip", Value.int S)] =
        [("skip", if S < 0 then Value.int 0 else Value.int S)] := rfl
    rw [hred, if_pos hS]

/-- C3 witness: the invariants evaluated at limit 500, skip -5, a
string-valued limit and a string-valued skip. -/
theorem validate_options_invariants_witness :
    ("skip" ∈ dictKeys (validate_options [("skip", Value.int 7), ("junk", Value.int 1)]) →
      "skip" ∈ ALLOWED_OPTIONS)
    ∧ (∃ n : Int,
        dictGet (validate_options [("limit", Value.int 500)]) "limit" = some (Value.int n)
        ∧ n ≤ 100)
    ∧ (∃ n : Int,
        dictGet (validate_options [("skip", Value.int (-5))]) "skip" = some (Value.int n)
        ∧ 0 ≤ n)
    ∧ validate_options [("limit", Value.str "big")] = [("limit", Value.int 100)]
    ∧ validate_options [("skip", Value.str "far")] = [("skip", Value.int 0)]
    ∧ validate_options [("skip", Value.int (-5))] = [("skip", Value.int 0)] :=
  ⟨validate_options_invariants.1 _ "skip",
   validate_options_invariants.2.1 500,
   validate_options_invariants.2.2.1 (-5),
   validate_options_invariants.2.2.2.1 (Value.str "big") rfl,
   validate_options_invariants.2.2.2.2.1 (Value.str "far") rfl,
   validate_options_invariants.2.2.2.2.2 (-5) (by norm_num)⟩

/-! Lemmas about cursor construction and the applied-stage trace. -/

/-- The one-element trace of a stage when its option is present
(truthy), the empty trace otherwise. -/
def presentTag (t : StageTag) (present : Bool) : List StageTag :=
  if present then [t] else []

theorem mem_presentTag {x t : StageTag} {b : Bool} (h : x ∈ presentTag t b) : x = t := by
  unfold presentTag at h
  cases b with
  | true => simpa using h
  | false => simp at h

theorem stepProjection_ok {opts : Dict} {c c' : Cursor}
    (h : stepProjection opts c = .ok c') :
    c'.filter = c.filter ∧ c'.sortOpt = c.sortOpt ∧ c'.skipOpt = c.skipOpt
    ∧ c'.limitOpt = c.limitOpt
    ∧ c'.applied = c.applied ++ presentTag .projection (getTruthy opts "projection").isSome := by
  unfold stepProjection at h
  split at h
  next p hg =>
    split at h
    next pd hm => cases h; simp [Cursor.withProjection, presentTag, hg]
    next e hm => cases h
  next hg => cases h; simp [presentTag, hg]

theorem stepSort_ok {opts : Dict} {c c' : Cursor}
    (h : stepSort opts c = .ok c') :
    c'.filter = c.filter ∧ c'.projectionOpt = c.projectionOpt ∧ c'.skipOpt = c.skipOpt
    ∧ c'.limitOpt = c.limitOpt
    ∧ c'.applied = c.applied ++ presentTag .sort (getTruthy opts "sort").isSome := by
  unfold stepSort at h
  split at h
  next s hg =>
    split at h
    next spec hm => cases h; simp [Cursor.withSort, presentTag, hg]
    next e hm => cases h
  next hg => cases h; simp [presentTag, hg]

theorem stepSkip_ok {opts : Dict} {c c' : Cursor}
    (h : stepSkip opts c = .ok c') :
    c'.filter = c.filter ∧ c'.projectionOpt = c.projectionOpt ∧ c'.sortOpt = c.sortOpt
    ∧ c'.limitOpt = c.limitOpt
    ∧ c'.applied = c.applied ++ presentTag .skip (getTruthy opts "skip").isSome := by
  unfold stepSkip at h
  split at h
  next v hg =>
    split at h
    next n hm => cases h; simp [Cursor.withSkip, presentTag, hg]
    next hm => cases h
  next hg => cases h; simp [presentTag, hg]

theorem stepLimit_ok {opts : Dict} {c c' : Cursor}
    (h : stepLimit opts c = .ok c') :
    c'.filter = c.filter ∧ c'.projectionOpt = c.projectionOpt ∧ c'.sortOpt = c.sortOpt
    ∧ c'.skipOpt = c.skipOpt
    ∧ c'.applied = c.applied ++ presentTag .limit (getTruthy opts "limit").isSome := by
  unfold stepLimit at h
  split at h
  next v hg =>
    split at h
    next n hm => cases h; simp [Cursor.withLimit, presentTag, hg]
    next hm => cases h
  next hg => cases h; simp [presentTag, hg]

/-- The stage trace MongoQueryTool.execute chains, as a function of the
options: a present truthy option contributes its stage, in the code
order projection, sort, skip, limit. -/
def queryToolTrace (opts : Dict) : List StageTag :=
  presentTag .projection (getTruthy opts "projection").isSome
    ++ presentTag .sort (getTruthy opts "sort").isSome
    ++ presentTag .skip (getTruthy opts "skip").isSome
    ++ presentTag .limit (getTruthy opts "limit").isSome

/-- The stage trace MongoMCPServer.call_tool chains: a present truthy
option contributes its stage, in the code order limit, sort,
projection; no skip stage exists on this path. -/
def callToolTrace (opts : Dict) : List StageTag :=
  presentTag .limit (getTruthy opts "limit").isSome
    ++ presentTag .sort (getTruthy opts "sort").isSome
    ++ presentTag .projection (getTruthy opts "projection").isSome

theorem buildCursorQueryTool_applied {opts query : Dict} {c : Cursor}
    (h : buildCursorQueryTool opts query = .ok c) :
    c.applied = queryToolTrace opts := by
  unfold buildCursorQueryTool at h
  split at h
  next e h₁ => cases h
  next c₁ h₁ =>
    split at h
    next e h₂ => cases h
    next c₂ h₂ =>
      split at h
      next e h₃ => cases h
      next c₃ h₃ =>
        have e₁ := (stepProjection_ok h₁).2.2.2.2
        have e₂ := (stepSort_ok h₂).2.2.2.2
        have e₃ := (stepSkip_ok h₃).2.2.2.2
        have e₄ := (stepLimit_ok h).2.2.2.2
        rw [e₄, e₃, e₂, e₁]
        show ([] : List StageTag) ++ _ ++ _ ++ _ ++ _ = _
        simp [queryToolTrace, List.append_assoc]

theorem buildCursorCallTool_applied {opts query : Dict} {c : Cursor}
    (h : buildCursorCallTool opts query = .ok c) :
    c.applied = callToolTrace opts := by
  unfold buildCursorCallTool at h
  split at h
  next e h₁ => cases h
  next c₁ h₁ =>
    split at h
    next e h₂ => cases h
    next c₂ h₂ =>
      have e₁ := (stepLimit_ok h₁).2.2.2.2
      have e₂ := (stepSort_ok h₂).2.2.2.2
      have e₃ := (stepProjection_ok h).2.2.2.2
      rw [e₃, e₂, e₁]
      show ([] : List StageTag) ++ _ ++ _ ++ _ = _
      simp [callToolTrace, List.append_assoc]

/-- C4 counterexample: with all four sanitized options present
(projection on a, ascending sort on b, skip 5, limit 7), the server's
call_tool path chains the stages in the order limit, sort, projection —
not projection, sort, skip, limit — and never applies skip. -/
theorem call_tool_stage_order_cex :
    (buildCursorCallTool
        [("projection", Value.obj [("a", Value.int 1)]),
         ("sort", Value.obj [("b", Value.int 1)]),
         ("skip", Value.int 5), ("limit", Value.int 7)] []).map Cursor.applied
      = Except.ok [StageTag.limit, StageTag.sort, StageTag.projection]
    ∧ ([StageTag.limit, StageTag.sort, StageTag.projection]
        ≠ [StageTag.projection, StageTag.sort, StageTag.skip, StageTag.limit])
    ∧ StageTag.skip ∉ [StageTag.limit, StageTag.sort, StageTag.projection] :=
  ⟨rfl, by decide, by decide⟩

/-- C4 amended: MongoQueryTool.execute chains the present truthy
options in the fixed order projection, sort, skip, limit; but the
MCP server's call_tool path chains them in the order limit, sort,
projection with no skip stage at all, and on both paths an option whose
value is falsy is not applied. -/
theorem cursor_stage_order :
    (∀ (opts query : Dict) (c : Cursor), buildCursorQueryTool opts query = .ok c →
      c.applied = queryToolTrace opts)
    ∧ (∀ (opts query : Dict) (c : Cursor), buildCursorCallTool opts query = .ok c →
      c.applied = callToolTrace opts)
    ∧ (∀ opts : Dict, StageTag.skip ∉ callToolTrace opts) := by
  refine ⟨fun _ _ _ h => buildCursorQueryTool_applied h,
    fun _ _ _ h => buildCursorCallTool_applied h, ?_⟩
  intro opts hmem
  unfold callToolTrace at hmem
  rcases List.mem_append.mp hmem with h | h
  · rcases List.mem_append.mp h with h | h
    · cases mem_presentTag h
    · cases mem_presentTag h
  · cases mem_presentTag h

/-- C4 amended witness: the traces computed with all four options
supplied, on both paths. -/
theorem cursor_stage_order_witness :
    ((((((Cursor.find []).withProjection [("a", Value.int 1)]).withSort
        [("b", Value.int 1)]).withSkip 5).withLimit 7).applied)
      = queryToolTrace
          [("projection", Value.obj [("a", Value.int 1)]),
           ("sort", Value.obj [("b", Value.int 1)]),
           ("skip", Value.int 5), ("limit", Value.int 7)]
    ∧ (((((Cursor.find []).withLimit 7).withSort
        [("b", Value.int 1)]).withProjection [("a", Value.int 1)]).applied)
      = callToolTrace
          [("projection", Value.obj [("a", Value.int 1)]),
           ("sort", Value.obj [("b", Value.int 1)]),
           ("skip", Value.int 5), ("limit", Value.int 7)]
    ∧ StageTag.skip ∉ callToolTrace
          [("projection", Value.obj [("a", Value.int 1)]),
           ("sort", Value.obj [("b", Value.int 1)]),
           ("skip", Value.int 5), ("limit", Value.int 7)] :=
  ⟨cursor_stage_order.1
      [("projection", Value.obj [("a", Value.int 1)]),
       ("sort", Value.obj [("b", Value.int 1)]),
       ("skip", Value.int 5), ("limit", Value.int 7)] [] _ rfl,
   cursor_stage_order.2.1
      [("projection", Value.obj [("a", Value.int 1)]),
       ("sort", Value.obj [("b", Value.int 1)]),
       ("skip", Value.int 5), ("limit", Value.int 7)] [] _ rfl,
   cursor_stage_order.2.2 _⟩

/-! Truthiness of zero-valued options (C10). -/

theorem insertSorted_length (spec : List (String × Value)) (d : Dict) (l : List Dict) :
    (insertSorted spec d l).length = l.length + 1 := by
  induction l with
  | nil => rfl
  | cons e rest ih =>
    unfold insertSorted
    by_cases hc : docCompare spec d e = Ordering.gt
    · simp [hc, ih]
    · simp [hc]

theorem sortDocs_length (spec : List (String × Value)) (l : List Dict) :
    (sortDocs spec l).length = l.length := by
  induction l with
  | nil => rfl
  | cons d rest ih =>
    unfold sortDocs
    rw [insertSorted_length, ih]
    rfl

theorem materialize_length_of_unbounded {c : Cursor} (hs : c.skipOpt = none)
    (hl : c.limitOpt = none) (coll : List Dict) :
    (c.materialize coll).length = (coll.filter (filterMatches c.filter)).length := by
  unfold Cursor.materialize
  rw [hs, hl]
  cases hso : c.sortOpt <;> cases hp : c.projectionOpt <;>
    simp [sortDocs_length]

theorem getTruthy_zero {d : Dict} {k : String} (h : dictGet d k = some (Value.int 0)) :
    getTruthy d k = none := by
  unfold getTruthy
  rw [h]
  simp [truthy]

theorem stepSkip_absent {opts : Dict} (c : Cursor) (h : getTruthy opts "skip" = none) :
    stepSkip opts c = .ok c := by
  unfold stepSkip
  rw [h]

theorem stepLimit_absent {opts : Dict} (c : Cursor) (h : getTruthy opts "limit" = none) :
    stepLimit opts c = .ok c := by
  unfold stepLimit
  rw [h]

theorem buildCursorQueryTool_unbounded {opts query : Dict} {c : Cursor}
    (hl : getTruthy opts "limit" = none) (hs : getTruthy opts "skip" = none)
    (h : buildCursorQueryTool opts query = .ok c) :
    c.filter = query ∧ c.skipOpt = none ∧ c.limitOpt = none := by
  unfold buildCursorQueryTool at h
  split at h
  next e h₁ => cases h
  next c₁ h₁ =>
    split at h
    next e h₂ => cases h
    next c₂ h₂ =>
      split at h
      next e h₃ => cases h
      next c₃ h₃ =>
        rw [stepSkip_absent c₂ hs] at h₃
        cases h₃
        rw [stepLimit_absent c₂ hl] at h
        cases h
        obtain ⟨f₁, _, s₁, l₁, _⟩ := stepProjection_ok h₁
        obtain ⟨f₂, _, s₂, l₂, _⟩ := stepSort_ok h₂
        exact ⟨f₂.trans f₁, s₂.trans s₁, l₂.trans l₁⟩

/-- C10: When the sanitized options carry limit 0 (which the sanitizer
keeps, replacing only non-integers and integers above 100) the query
tool's executor applies no limit stage — the cursor keeps no limit and
the read returns every matching document — and a skip of 0 likewise
applies no skip stage, because option application is guarded by
truthiness of the value rather than key presence. -/
theorem zero_options_not_applied :
    (∀ (opts query : Dict) (c : Cursor),
        dictGet opts "limit" = some (Value.int 0) →
        dictGet opts "skip" = some (Value.int 0) →
        buildCursorQueryTool opts query = .ok c →
        c.limitOpt = none ∧ c.skipOpt = none
        ∧ StageTag.limit ∉ c.applied ∧ StageTag.skip ∉ c.applied
        ∧ ∀ coll : List Dict,
            (c.materialize coll).length = (coll.filter (filterMatches query)).length)
    ∧ validate_options [("limit", Value.int 0), ("skip", Value.int 0)]
        = [("limit", Value.int 0), ("skip", Value.int 0)] := by
  refine ⟨?_, rfl⟩
  intro opts query c hl hs h
  have hl' := getTruthy_zero hl
  have hs' := getTruthy_zero hs
  obtain ⟨hf, hsn, hln⟩ := buildCursorQueryTool_unbounded hl' hs' h
  have htr := buildCursorQueryTool_applied h
  refine ⟨hln, hsn, ?_, ?_, ?_⟩
  · rw [htr]
    unfold queryToolTrace
    rw [hl', hs']
    simp only [Option.isSome_none,
      show ∀ t, presentTag t false = [] from fun _ => rfl, List.append_nil]
    intro hmem
    rcases List.mem_append.mp hmem with hm | hm
    · cases mem_presentTag hm
    · cases mem_presentTag hm
  · rw [htr]
    unfold queryToolTrace
    rw [hl', hs']
    simp only [Option.isSome_none,
      show ∀ t, presentTag t false = [] from fun _ => rfl, List.append_nil]
    intro hmem
    rcases List.mem_append.mp hmem with hm | hm
    · cases mem_presentTag hm
    · cases mem_presentTag hm
  · intro coll
    rw [materialize_length_of_unbounded hsn hln, hf]

/-- C10 witness: options limit 0, skip 0 on the empty query build a
bare cursor with no limit and no skip, whose materialization over a
one-document store keeps that document. -/
theorem zero_options_not_applied_witness :
    (Cursor.find []).limitOpt = none ∧ (Cursor.find []).skipOpt = none
    ∧ StageTag.limit ∉ (Cursor.find []).applied
    ∧ StageTag.skip ∉ (Cursor.find []).applied
    ∧ ((Cursor.find []).materialize [[("a", Value.int 1)]]).length
        = (([[("a", Value.int 1)]] : List Dict).filter (filterMatches [])).length := by
  have h := zero_options_not_applied.1 [("limit", Value.int 0), ("skip", Value.int 0)]
    [] (Cursor.find []) rfl rfl rfl
  exact ⟨h.1, h.2.1, h.2.2.1, h.2.2.2.1, h.2.2.2.2 _⟩

/-! The default-cap question (C1). -/

/-- C1 counterexample: over a store of 101 documents matching the empty
filter, a query with an empty options mapping returns all 101 documents
— no default cap of 100 is applied when no limit is supplied. -/
theorem execute_no_default_cap_cex :
    ¬ (∀ docs : List Dict,
        MongoQueryTool.runQuery ((List.range 101).map (fun i : Nat => [("i", Value.int (i : Int))])) [] []
          = .ok docs → docs.length ≤ 100) := by
  intro hcap
  have h := hcap ((List.range 101).map (fun i : Nat => [("i", Value.int (i : Int))])) rfl
  rw [List.length_map, List.length_range] at h
  exact absurd h (by norm_num)

/-- C1 amended: with an empty options mapping the executor applies no
limit at all and returns every matching document; the cap of 100 is
applied only when a limit key is supplied whose value is above 100 (or
not an integer), in which case at most 100 documents come back. -/
theorem execute_empty_options_unbounded :
    (∀ (coll : List Dict) (query : Dict),
        MongoQueryTool.runQuery coll query [] = .ok (coll.filter (filterMatches query)))
    ∧ (∀ (coll : List Dict) (query : Dict) (L : Int), 100 < L →
        MongoQueryTool.runQuery coll query [("limit", Value.int L)]
          = .ok ((coll.filter (filterMatches query)).take 100))
    ∧ (∀ (coll : List Dict) (query : Dict) (v : Value), v.asPyInt = none →
        MongoQueryTool.runQuery coll query [("limit", v)]
          = .ok ((coll.filter (filterMatches query)).take 100)) := by
  refine ⟨fun coll query => rfl, ?_, ?_⟩
  · intro coll query L hL
    have hv : validate_options [("limit", Value.int L)] = [("limit", Value.int 100)] := by
      have hred : validate_options [("limit", Value.int L)] =
          [("limit", if L > 100 then Value.int 100 else Value.int L)] := rfl
      rw [hred, if_pos hL]
    unfold MongoQueryTool.runQuery
    rw [hv]
    rfl
  · intro coll query v hv
    have hred : validate_options [("limit", v)] =
        [("limit", validateEntry "limit" v)] := rfl
    have hv' : validate_options [("limit", v)] = [("limit", Value.int 100)] := by
      rw [hred]
      unfold validateEntry
      rw [if_pos rfl, hv]
    unfold MongoQueryTool.runQuery
    rw [hv']
    rfl

/-- C1 amended witness: a one-document store with limit 101 supplied
(clamped to 100) and with a string limit. -/
theorem execute_empty_options_unbounded_witness :
    MongoQueryTool.runQuery [[("a", Value.int 1)]] [] []
      = .ok (([[("a", Value.int 1)]] : List Dict).filter (filterMatches []))
    ∧ MongoQueryTool.runQuery [[("a", Value.int 1)]] [] [("limit", Value.int 101)]
      = .ok ((([[("a", Value.int 1)]] : List Dict).filter (filterMatches [])).take 100)
    ∧ MongoQueryTool.runQuery [[("a", Value.int 1)]] [] [("limit", Value.str "many")]
      = .ok ((([[("a", Value.int 1)]] : List Dict).filter (filterMatches [])).take 100) :=
  ⟨execute_empty_options_unbounded.1 _ _,
   execute_empty_options_unbounded.2.1 _ _ 101 (by norm_num),
   execute_empty_options_unbounded.2.2 _ _ (Value.str "many") rfl⟩

/-! Tool-name routing (C2), empty results (C6), uri independence (C9). -/

/-- C2 counterexample: the tool name query_unknown is not the
advertised tool, yet call_tool executes the query against the
configured collection and returns its result, not an unknown-tool
message, because the code only checks the prefix query_. -/
theorem call_tool_unknown_name_cex :
    MongoMCPServer.call_tool ⟨[[("a", Value.str "x")]], true⟩ "query_unknown" {}
      = ["Found 1 matching documents:\n\x7b\n  \"a\": \"x\"\n\x7d"]
    ∧ ("Found 1 matching documents:\n\x7b\n  \"a\": \"x\"\n\x7d" : String)
      ≠ "Unknown tool: query_unknown" :=
  ⟨rfl, by decide⟩

/-- C2 amended: on a connected server, call_tool answers with the
unknown-tool text exactly for the names that do not start with query_;
every name starting with query_ (query_unknown included) runs the query
against the configured collection. -/
theorem call_tool_routing :
    (∀ (s : ServerState) (name : String) (args : Params),
        s.is_connected = true → pyStartsWith name "query_" = false →
        MongoMCPServer.call_tool s name args = ["Unknown tool: " ++ name])
    ∧ (∀ (s : ServerState) (name : String) (args : Params),
        s.is_connected = true → pyStartsWith name "query_" = true →
        MongoMCPServer.call_tool s name args =
          match MongoMCPServer.callToolE s args with
          | .ok r => r
          | .error e => ["Error executing query: " ++ e]) := by
  constructor
  · intro s name args h₁ h₂
    simp [MongoMCPServer.call_tool, h₁, h₂]
  · intro s name args h₁ h₂
    simp [MongoMCPServer.call_tool, h₁, h₂]

/-- C2 amended witness: the two routing branches evaluated on a
one-document store for the names other_tool and query_unknown. -/
theorem call_tool_routing_witness :
    MongoMCPServer.call_tool ⟨[[("b", Value.int 2)]], true⟩ "other_tool" {}
      = ["Unknown tool: " ++ "other_tool"]
    ∧ MongoMCPServer.call_tool ⟨[[("b", Value.int 2)]], true⟩ "query_unknown" {}
      = (match MongoMCPServer.callToolE ⟨[[("b", Value.int 2)]], true⟩ {} with
         | .ok r => r
         | .error e => ["Error executing query: " ++ e]) :=
  ⟨call_tool_routing.1 ⟨[[("b", Value.int 2)]], true⟩ "other_tool" {} rfl rfl,
   call_tool_routing.2 ⟨[[("b", Value.int 2)]], true⟩ "query_unknown" {} rfl rfl⟩

/-- C6: Whenever the materialized result sequence is empty, both query
paths answer with the fixed text No matching documents found. as a
success value — the empty result raises nothing. -/
theorem empty_result_fixed_message :
    (∀ (collectionName : String) (coll : List Dict) (params : Params) (c : Cursor),
        buildCursorQueryTool (validate_options (params.optionsArg.getD []))
            (params.queryArg.getD []) = .ok c →
        c.materialize coll = [] →
        MongoQueryTool.execute collectionName coll params
          = ["No matching documents found."])
    ∧ (∀ (s : ServerState) (name : String) (args : Params) (c : Cursor),
        s.is_connected = true → pyStartsWith name "query_" = true →
        buildCursorCallTool (filterAllowed (args.optionsArg.getD []))
            (args.queryArg.getD []) = .ok c →
        c.materialize s.docs = [] →
        MongoMCPServer.call_tool s name args = ["No matching documents found."]) := by
  constructor
  · intro collectionName coll params c hb hm
    simp [MongoQueryTool.execute, MongoQueryTool.executeE, hb, hm]
  · intro s name args c hc hn hb hm
    simp [MongoMCPServer.call_tool, MongoMCPServer.callToolE, hc, hn, hb, hm]

/-- C6 witness: both paths on an empty store with empty arguments. -/
theorem empty_result_fixed_message_witness :
    MongoQueryTool.execute "detailed_financials" [] {}
      = ["No matching documents found."]
    ∧ MongoMCPServer.call_tool ⟨[], true⟩ "query_detailed_financials" {}
      = ["No matching documents found."] :=
  ⟨empty_result_fixed_message.1 "detailed_financials" [] {} (Cursor.find []) rfl rfl,
   empty_result_fixed_message.2 ⟨[], true⟩ "query_detailed_financials" {}
     (Cursor.find []) rfl rfl rfl rfl⟩

/-- C9: On a connected server the text read_resource returns does not
depend on the uri argument: the collection name parsed from the uri is
never used and the configured collection is always the one queried. -/
theorem read_resource_uri_independent (s : ServerState) (u₁ u₂ : String)
    (_ : s.is_connected = true) :
    MongoMCPServer.read_resource s u₁ = MongoMCPServer.read_resource s u₂ := rfl

/-- C9 witness: two unrelated uris over the same connected state. -/
theorem read_resource_uri_independent_witness :
    MongoMCPServer.read_resource ⟨[[("a", Value.int 1)]], true⟩ "mongodb://detailed_financials"
      = MongoMCPServer.read_resource ⟨[[("a", Value.int 1)]], true⟩ "mongodb://other" :=
  read_resource_uri_independent ⟨[[("a", Value.int 1)]], true⟩ _ _ rfl

/-! Datetime rendering (C7) and summary formats (C5). -/

/-- C7 counterexample: a document holding a datetime makes the query
tool's rendering fail — its json.dumps call omits the custom encoder —
so the tool answers with the serialization error text instead of a page
carrying an ISO-8601 string. -/
theorem datetime_render_cex :
    MongoQueryTool.execute "detailed_financials"
        [[("ts", Value.dateTime "2024-01-01T00:00:00")]] {}
      = ["Error executing query on detailed_financials: " ++ datetimeDumpErr]
    ∧ jsonDumps false 0 (Value.dateTime "2024-01-01T00:00:00")
      = .error datetimeDumpErr :=
  ⟨rfl, rfl⟩

/-- C7 amended: with MongoJSONEncoder (the server's call_tool and
read_resource paths) a datetime renders as its quoted ISO-8601 string;
without it (MongoQueryTool.execute and the collection resource's
get_content) a datetime makes rendering fail and the paths answer with
their serialization error text. -/
theorem datetime_render_amended :
    (∀ (iso : String) (lvl : Nat),
        jsonDumps true lvl (Value.dateTime iso) = .ok (jsonQuote iso))
    ∧ (∀ (iso : String) (lvl : Nat),
        jsonDumps false lvl (Value.dateTime iso) = .error datetimeDumpErr)
    ∧ MongoMCPServer.call_tool ⟨[[("ts", Value.dateTime "2024-01-01T00:00:00")]], true⟩
          "query_detailed_financials" {}
      = ["Found 1 matching documents:\n\x7b\n  \"ts\": \"2024-01-01T00:00:00\"\n\x7d"]
    ∧ MongoMCPServer.read_resource ⟨[[("ts", Value.dateTime "2024-01-01T00:00:00")]], true⟩
          "mongodb://detailed_financials"
      = "\x7b\n  \"ts\": \"2024-01-01T00:00:00\"\n\x7d"
    ∧ MongoCollectionResource.get_content "detailed_financials"
          [[("ts", Value.dateTime "2024-01-01T00:00:00")]] [] 0 10
      = ["Error retrieving documents from detailed_financials: " ++ datetimeDumpErr] :=
  ⟨fun _ _ => rfl, fun _ _ => rfl, rfl, rfl, rfl⟩

/-- True when pat occurs inside s as a contiguous run of characters. -/
def charsContain (pat : List Char) : List Char → Bool
  | [] => pat.isEmpty
  | c :: rest => pat.isPrefixOf (c :: rest) || charsContain pat rest

/-- True when pat occurs inside s. -/
def strContains (s pat : String) : Bool := charsContain pat.data s.data

/-- C5 counterexample: a call_tool page over a 3-document store with
limit 2 carries the header Found 2 matching documents — the character 3
appears nowhere in the payload, so neither the total count of matching
documents (3) nor a range capped by it is stated. -/
theorem render_summary_cex :
    MongoMCPServer.call_tool
        ⟨[[("a", Value.str "x")], [("a", Value.str "y")], [("a", Value.str "z")]], true⟩
        "query_detailed_financials" ⟨some [], some [("limit", Value.int 2)]⟩
      = ["Found 2 matching documents:\n\x7b\n  \"a\": \"x\"\n\x7d\n\x7b\n  \"a\": \"y\"\n\x7d"]
    ∧ count_documents
        [[("a", Value.str "x")], [("a", Value.str "y")], [("a", Value.str "z")]] [] = 3
    ∧ strContains
        "Found 2 matching documents:\n\x7b\n  \"a\": \"x\"\n\x7d\n\x7b\n  \"a\": \"y\"\n\x7d"
        "3" = false :=
  ⟨rfl, rfl, rfl⟩

/-- C5 amended: only the collection resource's renderer prefixes the
payload with the total count together with the 1-based index range
skip+1 .. min(skip+shown, total); the query tool's renderer prefixes
the total count and the number shown but no index range; the server's
call_tool renderer prefixes only the number returned. -/
theorem render_summary_formats :
    (∀ (collectionName : String) (coll : List Dict) (query : Dict) (skipN limitN : Int)
        (d : Dict) (ds : List Dict) (fd : List String),
        (((Cursor.find query).withSkip skipN).withLimit limitN).materialize coll = d :: ds →
        formatDocs false (d :: ds) = .ok fd →
        MongoCollectionResource.get_content collectionName coll query skipN limitN
          = [resourceSummary (count_documents coll query) skipN (d :: ds).length
              ++ String.intercalate "\n" fd])
    ∧ (∀ (collectionName : String) (coll : List Dict) (params : Params) (c : Cursor)
        (d : Dict) (ds : List Dict) (fd : List String),
        buildCursorQueryTool (validate_options (params.optionsArg.getD []))
            (params.queryArg.getD []) = .ok c →
        c.materialize coll = d :: ds →
        formatDocs false (d :: ds) = .ok fd →
        MongoQueryTool.execute collectionName coll params
          = [queryToolSummary (count_documents coll (params.queryArg.getD []))
              (d :: ds).length ++ String.intercalate "\n" fd])
    ∧ (∀ (s : ServerState) (name : String) (args : Params) (c : Cursor)
        (d : Dict) (ds : List Dict) (fd : List String),
        s.is_connected = true → pyStartsWith name "query_" = true →
        buildCursorCallTool (filterAllowed (args.optionsArg.getD []))
            (args.queryArg.getD []) = .ok c →
        c.materialize s.docs = d :: ds →
        formatDocs true (d :: ds) = .ok fd →
        MongoMCPServer.call_tool s name args
          = [callToolSummary (d :: ds).length ++ String.intercalate "\n" fd]) := by
  refine ⟨?_, ?_, ?_⟩
  · intro collectionName coll query skipN limitN d ds fd hm hf
    simp [MongoCollectionResource.get_content, hm, hf]
  · intro collectionName coll params c d ds fd hb hm hf
    simp [MongoQueryTool.execute, MongoQueryTool.executeE, hb, hm, hf]
  · intro s name args c d ds fd hc hn hb hm hf
    simp [MongoMCPServer.call_tool, MongoMCPServer.callToolE, hc, hn, hb, hm, hf]

/-- C5 amended witness: the three renderers evaluated over a
one-document store with empty query and default pagination. -/
theorem render_summary_formats_witness :
    MongoCollectionResource.get_content "c" [[("a", Value.str "x")]] [] 0 10
      = [resourceSummary (count_documents [[("a", Value.str "x")]] []) 0 1
          ++ String.intercalate "\n" ["\x7b\n  \"a\": \"x\"\n\x7d"]]
    ∧ MongoQueryTool.execute "c" [[("a", Value.str "x")]] {}
      = [queryToolSummary (count_documents [[("a", Value.str "x")]] []) 1
          ++ String.intercalate "\n" ["\x7b\n  \"a\": \"x\"\n\x7d"]]
    ∧ MongoMCPServer.call_tool ⟨[[("a", Value.str "x")]], true⟩ "query_c" {}
      = [callToolSummary 1 ++ String.intercalate "\n" ["\x7b\n  \"a\": \"x\"\n\x7d"]] :=
  ⟨render_summary_formats.1 "c" [[("a", Value.str "x")]] [] 0 10
      [("a", Value.str "x")] [] ["\x7b\n  \"a\": \"x\"\n\x7d"] rfl rfl,
   render_summary_formats.2.1 "c" [[("a", Value.str "x")]] {} (Cursor.find [])
      [("a", Value.str "x")] [] ["\x7b\n  \"a\": \"x\"\n\x7d"] rfl rfl rfl,
   render_summary_formats.2.2 ⟨[[("a", Value.str "x")]], true⟩ "query_c" {} (Cursor.find [])
      [("a", Value.str "x")] [] ["\x7b\n  \"a\": \"x\"\n\x7d"] rfl rfl rfl rfl rfl⟩

end MongoMcp
